import Mathlib

/-
  Verification of the lunch-picker search pipeline.

  Shallow embedding of the core of `apps/api/src/index.ts` and of the
  extracted rate-limiter module (`apps/api/src/rateLimiter.ts`).
  JavaScript floating-point numbers are modelled by exact rationals (ℚ);
  where the code can see NaN / ±Infinity (request validation), a dedicated
  type `JNum` models those values explicitly.  The transcendental geodesic
  functions (`haversineMeters`, `displaceCoordinate`) are modelled over ℝ.
-/

namespace LunchPicker

/-! ## Constants (src/apps/api/src/index.ts, lines 38-40) -/

def RATE_LIMIT_CAPACITY : ℚ := 10

def RATE_LIMIT_INTERVAL_MS : ℚ := 60000

def SEARCH_CACHE_TTL : ℚ := 600

/-! ## Token bucket rate limiter

`Bucket` is the persisted record `{tokens, updatedAt}`.  The consume
algorithm exists twice in the repository: parameterised in
`createRateLimiter` (apps/api/src/rateLimiter.ts, lines 52-87) and inlined
with fixed constants and a *constant* retry-after in `consumeToken`
(index.ts, lines 264-290).  Both are modelled below; the cache read/write
plumbing is factored out into `cacheGet`/`cachePut` further down. -/

structure Bucket where
  tokens : ℚ
  updatedAt : ℚ
deriving DecidableEq

structure RateLimiterConfig where
  capacity : ℚ
  intervalMs : ℚ
  bucketTtlSeconds : ℚ
deriving DecidableEq

/-- Outcome of one `consume` call: the returned `{allowed, retryAfterSeconds}`
pair together with the bucket state written back to the store (every call,
allowed or denied, persists exactly one bucket). -/
structure ConsumeOutcome where
  allowed : Bool
  retryAfterSeconds : ℤ
  persisted : Bucket
deriving DecidableEq

/-- Refill step shared by both consume implementations
(rateLimiter.ts lines 61-69 / index.ts lines 271-279):
absent bucket ⇒ full capacity; otherwise
`min(capacity, tokens + elapsed / intervalMs * capacity)`. -/
def refillTokens (cfg : RateLimiterConfig) (existing : Option Bucket) (now : ℚ) : ℚ :=
  match existing with
  | none => cfg.capacity
  | some b => min cfg.capacity (b.tokens + (now - b.updatedAt) / cfg.intervalMs * cfg.capacity)

namespace RateLimiter

/-- `createRateLimiter(config).consume` (rateLimiter.ts lines 56-85), as a
pure function of the decoded bucket read from the store.
On denial `retryAfterSeconds = ceil(((1 - tokens) / capacity * intervalMs) / 1000)`. -/
def consume (cfg : RateLimiterConfig) (existing : Option Bucket) (now : ℚ) : ConsumeOutcome :=
  let tokens := refillTokens cfg existing now
  if tokens < 1 then
    { allowed := false
      retryAfterSeconds := Int.ceil ((1 - tokens) / cfg.capacity * cfg.intervalMs / 1000)
      persisted := ⟨tokens, now⟩ }
  else
    { allowed := true
      retryAfterSeconds := 0
      persisted := ⟨tokens - 1, now⟩ }

end RateLimiter

/-- The inlined `consumeToken` of index.ts (lines 264-290), as a pure function
of the decoded bucket.  Identical refill and decrement logic with the fixed
constants, but the denial branch reports the *constant*
`Math.ceil(RATE_LIMIT_INTERVAL_MS / capacity / 1000)`. -/
def consumeTokenCore (existing : Option Bucket) (now : ℚ) : ConsumeOutcome :=
  let cfg : RateLimiterConfig := ⟨RATE_LIMIT_CAPACITY, RATE_LIMIT_INTERVAL_MS, 120⟩
  let tokens := refillTokens cfg existing now
  if tokens < 1 then
    { allowed := false
      retryAfterSeconds := Int.ceil (RATE_LIMIT_INTERVAL_MS / RATE_LIMIT_CAPACITY / 1000)
      persisted := ⟨tokens, now⟩ }
  else
    { allowed := true
      retryAfterSeconds := 0
      persisted := ⟨tokens - 1, now⟩ }

/-! ## Scoring (index.ts lines 537-562) -/

/-- `priceToScore` (index.ts lines 552-562).  A `none` price level (JS
falsy: `null`, `undefined` or `""`) scores 0.6; unknown labels fall back to
0.6 via `mapping[priceLevel] ?? 0.6`. -/
def priceToScore (priceLevel : Option String) : ℚ :=
  match priceLevel with
  | none => 0.6
  | some s =>
    if s = "PRICE_LEVEL_FREE" then 1
    else if s = "PRICE_LEVEL_INEXPENSIVE" then 0.9
    else if s = "PRICE_LEVEL_MODERATE" then 0.7
    else if s = "PRICE_LEVEL_EXPENSIVE" then 0.4
    else if s = "PRICE_LEVEL_VERY_EXPENSIVE" then 0.2
    else 0.6

/-- The rating component of `computeFitScore` (index.ts line 544):
`args.rating ? args.rating / 5 : 0.6`.  JavaScript truthiness makes a
present rating of `0` take the `0.6` branch, exactly like an absent one. -/
def ratingScore (rating : Option ℚ) : ℚ :=
  match rating with
  | none => 0.6
  | some r => if r = 0 then 0.6 else r / 5

/-- `computeFitScore` (index.ts lines 537-550).  `Math.round` on JS numbers
rounds half toward +∞, which agrees with Mathlib's `round`.  The model
computes the composite in exact rational arithmetic; when the exact
composite `* 1000` lands precisely on a `.5` rounding boundary, the
program's IEEE-double composite may fall on either side of it, so the
rounded third decimal can differ from this model by one ulp there (mock
template 4 is such a case: exact 715.5 rounds to 716 here, while the
double 715.4999999999999 rounds to 715 in the program).  Away from those
knife edges the model and the program agree. -/
def computeFitScore (rating : Option ℚ) (distance : ℚ) (radius : ℚ)
    (priceLevel : Option String) (openNow : Option Bool) : ℚ :=
  let rs := ratingScore rating
  let distanceScore := 1 - min 1 (distance / max radius 1)
  let priceScore := priceToScore priceLevel
  let openScore : ℚ := match openNow with
    | none => 0.5
    | some true => 1
    | some false => 0
  let composite := rs * 0.4 + distanceScore * 0.3 + priceScore * 0.2 + openScore * 0.1
  (round (composite * 1000) : ℚ) / 1000

/-! ## Validated search requests and the canonical cache key -/

structure GeoPoint where
  lat : ℚ
  lng : ℚ
deriving DecidableEq

/-- A validated `SearchRequest` (index.ts lines 11-17) at finite numeric
values, as consumed by the pipeline after `safeParseBody`.  `limit` is kept
as a natural number; `safeParseBody` (modelled separately below over `JNum`)
clamps it into `[1, 20]` but does not force integrality - the theorems about
validation record that explicitly. -/
structure SearchRequest where
  location : GeoPoint
  radius_m : ℚ
  cuisine : List String
  budget : Option ℚ
  limit : ℕ

/-- Model of JavaScript `Number.prototype.toFixed(4)` as used on latitudes
and longitudes in `buildCacheKey`: the value rounded to 4 decimal places,
rendered via the scaled integer.  (JS prints a decimal point; only equality
of the produced key strings matters to the claims, and `q ↦ round (q*10^4)`
identifies exactly the values `toFixed(4)` identifies.) -/
def toFixed4 (q : ℚ) : String :=
  toString (round (q * 10000))

/-- `buildCacheKey` (index.ts lines 318-325): canonical key from rounded
location, clamped radius, the lexicographically sorted cuisine list joined
with commas, and the budget ceiling (or `"none"`). -/
def buildCacheKey (req : SearchRequest) : String :=
  let cuisineKey := String.intercalate "," (List.insertionSort (· ≤ ·) req.cuisine)
  let budgetKey := match req.budget with
    | some m => toString m
    | none => "none"
  "search:" ++ toFixed4 req.location.lat ++ ":" ++ toFixed4 req.location.lng ++ ":"
    ++ toString req.radius_m ++ ":" ++ cuisineKey ++ ":" ++ budgetKey

/-! ## Request validation (`safeParseBody`, index.ts lines 292-316)

The request body arrives as untyped JSON; `safeParseBody` only checks
`typeof x === 'number'` on the location fields and the radius, so NaN and
±Infinity can flow through.  `JNum` models a JavaScript number including
those values; an absent or non-number field is modelled as `none`. -/

inductive JNum where
  | fin (q : ℚ)
  | posInf
  | negInf
  | nan
deriving DecidableEq

namespace JNum

def isNaN : JNum → Bool
  | .nan => true
  | _ => false

def isFinite : JNum → Bool
  | .fin _ => true
  | _ => false

/-- JavaScript `<=` on numbers: false whenever either side is NaN. -/
def jle : JNum → JNum → Bool
  | .nan, _ => false
  | _, .nan => false
  | .fin a, .fin b => a ≤ b
  | .fin _, .posInf => true
  | .fin _, .negInf => false
  | .posInf, .posInf => true
  | .posInf, _ => false
  | .negInf, _ => true

/-- JavaScript `Math.min` on two numbers: NaN-propagating, otherwise the
smaller argument. -/
def jmin : JNum → JNum → JNum
  | .nan, _ => .nan
  | _, .nan => .nan
  | .fin a, .fin b => .fin (min a b)
  | .negInf, _ => .negInf
  | _, .negInf => .negInf
  | .posInf, b => b
  | a, .posInf => a

/-- JavaScript `Math.max` on two numbers. -/
def jmax : JNum → JNum → JNum
  | .nan, _ => .nan
  | _, .nan => .nan
  | .fin a, .fin b => .fin (max a b)
  | .posInf, _ => .posInf
  | _, .posInf => .posInf
  | .negInf, b => b
  | a, .negInf => a

end JNum

/-- ASCII model of `String.prototype.toLowerCase` on a single character. -/
def charToLower (c : Char) : Char :=
  if 65 ≤ c.toNat ∧ c.toNat ≤ 90 then Char.ofNat (c.toNat + 32) else c

/-- ASCII model of `String.prototype.toLowerCase`. -/
def jsToLower (s : String) : String :=
  String.mk (s.data.map charToLower)

/-- `clamp` (index.ts lines 314-316): `Math.min(max, Math.max(min, value))`. -/
def clamp (value lo hi : JNum) : JNum :=
  JNum.jmin hi (JNum.jmax lo value)

structure RawLocation where
  lat : Option JNum
  lng : Option JNum
deriving DecidableEq

/-- A request body after JSON parsing, before validation.  `none` models an
absent field or one of a non-number type (which `typeof` rejects); cuisine
entries are strings (a non-string entry would make `toLowerCase` throw,
turning the whole body into an `Invalid JSON payload` error). -/
structure RawBody where
  location : Option RawLocation
  radius_m : Option JNum
  cuisine : Option (List String)
  budget : Option ℚ
  limit : Option JNum
deriving DecidableEq

/-- The validated request produced by `safeParseBody`, with the exact
JavaScript numbers it stores (possibly non-finite, possibly non-integral
limit). -/
structure ParsedRequest where
  lat : JNum
  lng : JNum
  radius_m : JNum
  cuisine : List String
  budget : Option ℚ
  limit : JNum
deriving DecidableEq

/-- `safeParseBody` (index.ts lines 292-316). -/
def safeParseBody (body : RawBody) : Except String ParsedRequest :=
  match body.location with
  | none => .error "location.lat and location.lng are required numbers."
  | some loc =>
    match loc.lat, loc.lng with
    | some lat, some lng =>
      match body.radius_m with
      | none => .error "radius_m must be a positive number."
      | some r =>
        if r.isNaN || r.jle (.fin 0) then .error "radius_m must be a positive number."
        else
          .ok
            { lat := lat
              lng := lng
              radius_m := JNum.jmin r (.fin 50000)
              cuisine := ((body.cuisine.getD []).map jsToLower).filter (fun s => s ≠ "")
              budget := body.budget
              limit := clamp (body.limit.getD (.fin 5)) (.fin 1) (.fin 20) }
    | _, _ => .error "location.lat and location.lng are required numbers."

/-! ## Search results and the shared key-value store

`SearchResult` (index.ts lines 19-31); the two URL fields are injective
functions of data already present (`buildStaticMapUrl`, `googleMapsUri`)
and are carried by no claim, so they are omitted from the model. -/

structure SearchResult where
  place_id : String
  name : String
  rating : Option ℚ
  distance_m : ℤ
  price_level : Option String
  open_now : Option Bool
  fit_score : ℚ
  address : Option String
  types : List String
deriving DecidableEq

structure CachedSearchResponse where
  results : List SearchResult
  cachedAt : ℚ
deriving DecidableEq

/-- A value held by the key-value store.  The store keeps JSON strings; the
model keeps the decoded value instead (`JSON.parse ∘ JSON.stringify` is the
identity on the records the code writes), with `corrupt` standing for any
string `JSON.parse` rejects.  Bucket keys (`ratelimit:` prefix) and search
keys (`search:` prefix) are disjoint, so a well-formed value of the wrong
kind cannot arise at a key; reading one is modelled as a failed decode. -/
inductive StoredVal where
  | bucket (b : Bucket)
  | response (r : CachedSearchResponse)
  | corrupt
deriving DecidableEq

/-- State of `createInMemoryCache` (index.ts lines 131-161): per key, the
stored value and its absolute expiry time (`null` when stored without TTL). -/
def CacheState : Type :=
  String → Option (StoredVal × Option ℚ)

/-- JSON decoding of a stored string: a corrupt record yields `null`. -/
def decodeStored : StoredVal → Option StoredVal
  | .corrupt => none
  | v => some v

/-- `get(key, {type:'json'})` of the in-memory cache (index.ts lines
135-152): absent ⇒ null; expired (`expiresAt && expiresAt <= Date.now()`,
note the JS truthiness guard on `expiresAt`) ⇒ delete and null; otherwise
the JSON-decoded value. -/
def cacheGet (st : CacheState) (now : ℚ) (key : String) : Option StoredVal × CacheState :=
  match st key with
  | none => (none, st)
  | some (v, exp) =>
    match exp with
    | some e =>
      if e ≠ 0 ∧ e ≤ now then (none, fun k => if k = key then none else st k)
      else (decodeStored v, st)
    | none => (decodeStored v, st)

/-- `put(key, value, {expirationTtl})` of the in-memory cache (index.ts
lines 153-156): `expiresAt = expirationTtl ? Date.now() + ttl*1000 : null`. -/
def cachePut (st : CacheState) (now : ℚ) (key : String) (v : StoredVal)
    (ttl : Option ℚ) : CacheState :=
  let exp : Option ℚ := match ttl with
    | some t => if t ≠ 0 then some (now + t * 1000) else none
    | none => none
  fun k => if k = key then some (v, exp) else st k

/-- `createRateLimiter(config).consume(key)` including its store traffic
(rateLimiter.ts lines 56-85): read `ratelimit:<key>` as JSON, run the
bucket algorithm, persist the updated bucket with the configured TTL. -/
def RateLimiter.consumeSt (cfg : RateLimiterConfig) (st : CacheState) (key : String)
    (now : ℚ) : ConsumeOutcome × CacheState :=
  let bucketKey := "ratelimit:" ++ key
  let read := cacheGet st now bucketKey
  let existing : Option Bucket := match read.1 with
    | some (.bucket b) => some b
    | _ => none
  let r := RateLimiter.consume cfg existing now
  (r, cachePut read.2 now bucketKey (.bucket r.persisted) (some cfg.bucketTtlSeconds))

/-- The inlined `consumeToken` of index.ts (lines 264-290) including its
store traffic: same bucket algorithm with the fixed constants and TTL 120,
but the constant retry-after of `consumeTokenCore`. -/
def consumeToken (st : CacheState) (key : String) (now : ℚ) : ConsumeOutcome × CacheState :=
  let bucketKey := "ratelimit:" ++ key
  let read := cacheGet st now bucketKey
  let existing : Option Bucket := match read.1 with
    | some (.bucket b) => some b
    | _ => none
  let r := consumeTokenCore existing now
  (r, cachePut read.2 now bucketKey (.bucket r.persisted) (some 120))

/-- A sequence of `consume` calls on one key against the same store,
starting from a given decoded bucket (`none` = absent): returns the list of
bucket records persisted by the successive calls, each call reading back
the bucket the previous one wrote. -/
def rlRun (cfg : RateLimiterConfig) : Option Bucket → List ℚ → List Bucket
  | _, [] => []
  | st, t :: ts =>
    let r := RateLimiter.consume cfg st t
    r.persisted :: rlRun cfg (some r.persisted) ts

/-! ## Geodesic math (index.ts lines 371-399 and 525-535), over ℝ -/

/-- JavaScript `Math.atan2 y x`. -/
noncomputable def atan2 (y x : ℝ) : ℝ :=
  if 0 < x then Real.arctan (y / x)
  else if x < 0 then
    (if 0 ≤ y then Real.arctan (y / x) + Real.pi else Real.arctan (y / x) - Real.pi)
  else if 0 < y then Real.pi / 2
  else if y < 0 then -(Real.pi / 2)
  else 0

/-- `haversineMeters` before its final `Math.round` (index.ts lines
525-534): haversine great-circle distance on a sphere of radius 6371 km,
arguments in degrees. -/
noncomputable def haversineRaw (lat1 lon1 lat2 lon2 : ℝ) : ℝ :=
  let dLat := (lat2 - lat1) * Real.pi / 180
  let dLon := (lon2 - lon1) * Real.pi / 180
  let a := Real.sin (dLat / 2) ^ 2 +
    Real.cos (lat1 * Real.pi / 180) * Real.cos (lat2 * Real.pi / 180) * Real.sin (dLon / 2) ^ 2
  let c := 2 * atan2 (Real.sqrt a) (Real.sqrt (1 - a))
  6371000 * c

/-- `haversineMeters` (index.ts lines 525-535), rounded to the nearest
meter. -/
noncomputable def haversineMeters (lat1 lon1 lat2 lon2 : ℝ) : ℤ :=
  round (haversineRaw lat1 lon1 lat2 lon2)

/-- `displaceCoordinate` (index.ts lines 371-399): forward geodesic
projection; returns `(latitude, longitude)` in degrees. -/
noncomputable def displaceCoordinate (lat lng distanceMeters bearingDegrees : ℝ) : ℝ × ℝ :=
  let angularDistance := distanceMeters / 6371000
  let bearing := bearingDegrees * Real.pi / 180
  let latRad := lat * Real.pi / 180
  let lngRad := lng * Real.pi / 180
  let newLatRad := Real.arcsin (Real.sin latRad * Real.cos angularDistance +
    Real.cos latRad * Real.sin angularDistance * Real.cos bearing)
  let newLngRad := lngRad + atan2
    (Real.sin bearing * Real.sin angularDistance * Real.cos latRad)
    (Real.cos angularDistance - Real.sin latRad * Real.sin newLatRad)
  (newLatRad * 180 / Real.pi, newLngRad * 180 / Real.pi)

/-! ## Raw upstream places and normalization (index.ts lines 453-518) -/

/-- A `GooglePlace` (index.ts lines 453-463).  `currentOpeningHours` is
flattened to the `openNow` tri-state the code extracts from it
(`currentOpeningHours?.openNow ?? null`); `googleMapsUri` is omitted (it
only feeds the omitted URL fields of `SearchResult`). -/
structure GooglePlace where
  id : String
  displayName : Option String
  rating : Option ℚ
  priceLevel : Option String
  types : List String
  openNow : Option Bool
  location : Option (ℝ × ℝ)
  shortFormattedAddress : Option String

/-- JavaScript `String.prototype.includes`: contiguous substring test. -/
def strIncludes (s needle : String) : Bool :=
  decide (needle.data <:+: s.data)

/-- `matchesCuisine` (index.ts lines 477-485). -/
def matchesCuisine (place : GooglePlace) (cuisineFilters : List String) : Bool :=
  if cuisineFilters.length = 0 then true
  else
    cuisineFilters.any (fun needle =>
      strIncludes (jsToLower (place.displayName.getD "")) needle ||
        place.types.any (fun t => strIncludes (jsToLower t) needle))

/-- `buildSearchResult` (index.ts lines 487-518): distance from the request
origin via `haversineMeters` (falling back to the origin itself without a
place coordinate), fitness score via `computeFitScore`. -/
noncomputable def buildSearchResult (place : GooglePlace) (req : SearchRequest) : SearchResult :=
  let lat : ℝ := (place.location.map Prod.fst).getD (req.location.lat : ℝ)
  let lng : ℝ := (place.location.map Prod.snd).getD (req.location.lng : ℝ)
  let distance := haversineMeters (req.location.lat : ℝ) (req.location.lng : ℝ) lat lng
  { place_id := place.id
    name := place.displayName.getD "Unknown place"
    rating := place.rating
    distance_m := distance
    price_level := place.priceLevel
    open_now := place.openNow
    fit_score := computeFitScore place.rating (distance : ℚ) req.radius_m place.priceLevel place.openNow
    address := place.shortFormattedAddress
    types := place.types }

/-- `normalizePlaces` (index.ts lines 465-475): cuisine filter, scoring,
stable sort by descending `fit_score`, truncation to the limit. -/
noncomputable def normalizePlaces (places : List GooglePlace) (req : SearchRequest) :
    List SearchResult :=
  let filtered := places.filter (fun p => matchesCuisine p req.cuisine)
  ((filtered.map (fun p => buildSearchResult p req)).insertionSort
    (fun a b => b.fit_score ≤ a.fit_score)).take req.limit

/-! ## Mock data (index.ts lines 69-125 and 327-369) -/

structure MockTemplate where
  id : String
  name : String
  baseDistanceMeters : ℚ
  bearingDegrees : ℚ
  rating : ℚ
  priceLevel : Option String
  openNow : Option Bool
  types : List String
  address : String

/-- `MOCK_PLACE_TEMPLATES` (index.ts lines 69-125). -/
def MOCK_PLACE_TEMPLATES : List MockTemplate :=
  [ { id := "mock-1", name := "ごはん処 和み", baseDistanceMeters := 180, bearingDegrees := 20,
      rating := 4.2, priceLevel := some "PRICE_LEVEL_INEXPENSIVE", openNow := some true,
      types := ["restaurant", "japanese_restaurant"], address := "駅前1-2-3" },
    { id := "mock-2", name := "麺屋 こだま", baseDistanceMeters := 320, bearingDegrees := 95,
      rating := 4.5, priceLevel := some "PRICE_LEVEL_MODERATE", openNow := some true,
      types := ["restaurant", "ramen_restaurant"], address := "中央通り5-6-1" },
    { id := "mock-3", name := "スパイス香房", baseDistanceMeters := 420, bearingDegrees := 210,
      rating := 4.1, priceLevel := some "PRICE_LEVEL_INEXPENSIVE", openNow := some false,
      types := ["restaurant", "curry_restaurant"], address := "南町3-8-10" },
    { id := "mock-4", name := "トラットリア ソレイユ", baseDistanceMeters := 290, bearingDegrees := 300,
      rating := 4.6, priceLevel := some "PRICE_LEVEL_EXPENSIVE", openNow := some true,
      types := ["restaurant", "italian_restaurant"], address := "西新町7-4-2" },
    { id := "mock-5", name := "茶寮 ほっと", baseDistanceMeters := 150, bearingDegrees := 135,
      rating := 4.0, priceLevel := none, openNow := none,
      types := ["cafe"], address := "北広場2-1-5" } ]

/-- The `place` record built for one index of the mock result loop
(index.ts lines 347-360): the coordinate is the request origin displaced
by `distance` meters along the template's bearing. -/
noncomputable def mockPlace (req : SearchRequest) (template : MockTemplate) (label : String)
    (useFallbackLabels : Bool) (distance : ℚ) (index : ℕ) : GooglePlace :=
  let coords := displaceCoordinate (req.location.lat : ℝ) (req.location.lng : ℝ)
    (distance : ℝ) (template.bearingDegrees : ℝ)
  { id := template.id ++ "-" ++ toString index
    displayName := some (if useFallbackLabels then template.name
      else template.name ++ " (" ++ label ++ ")")
    rating := some template.rating
    priceLevel := template.priceLevel
    types := template.types
    openNow := template.openNow
    location := some coords
    shortFormattedAddress := some template.address }

/-- `buildMockSearchResponse` (index.ts lines 327-369).  Note
`limit = Math.min(req.limit ?? 5, MOCK_PLACE_TEMPLATES.length)`: the count
is capped at the catalog size, so `index % MOCK_PLACE_TEMPLATES.length`
never wraps. -/
noncomputable def buildMockSearchResponse (req : SearchRequest) (now : ℚ) :
    CachedSearchResponse :=
  let limit := min req.limit MOCK_PLACE_TEMPLATES.length
  let cuisines := req.cuisine.filter (fun s => s ≠ "")
  let fallbackLabels := ["定食", "ラーメン", "カレー", "寿司", "カフェ"]
  let labels := if cuisines.length > 0 then cuisines else fallbackLabels
  let radius := max 100 (min req.radius_m 1000)
  let useFallbackLabels := cuisines.length = 0
  let results := (List.range limit).map (fun index =>
    let template := MOCK_PLACE_TEMPLATES.getD (index % MOCK_PLACE_TEMPLATES.length)
      (MockTemplate.mk "" "" 0 0 0 none none [] "")
    let label := labels.getD (index % labels.length) ""
    let distance := min radius (template.baseDistanceMeters + (index : ℚ) * 80)
    buildSearchResult (mockPlace req template label useFallbackLabels distance index) req)
  { results := results, cachedAt := now }

/-! ## The `/api/search` handler (index.ts lines 204-251)

The handler is modelled from the point where the body has been validated
(`safeParseBody` is modelled separately over `JNum`); the upstream HTTP
call `fetchNearbyPlaces` is an external effect and enters as the
`fetched` oracle argument, consulted only on the live-fetch path. -/

inductive HandlerResult where
  | tooManyRequests (retryAfterSeconds : ℤ)
  | ok (body : CachedSearchResponse) (cacheHit : Bool) (mockData : Bool)
  | upstreamError (msg : String) (status : ℕ)
deriving DecidableEq

noncomputable def searchHandler (apiKey : Option String)
    (fetched : Except (String × ℕ) (List GooglePlace))
    (st : CacheState) (rateKey : String) (req : SearchRequest) (now : ℚ) :
    HandlerResult × CacheState :=
  let rate := consumeToken st rateKey now
  if rate.1.allowed = false then (.tooManyRequests rate.1.retryAfterSeconds, rate.2)
  else
    let cacheKey := buildCacheKey req
    let looked := cacheGet rate.2 now cacheKey
    match looked.1 with
    | some (.response cached) => (.ok cached true false, looked.2)
    | _ =>
      match apiKey with
      | none =>
        let mockResponse := buildMockSearchResponse req now
        (.ok mockResponse false true,
          cachePut looked.2 now cacheKey (.response mockResponse) (some 120))
      | some _ =>
        match fetched with
        | .error e => (.upstreamError e.1 e.2, looked.2)
        | .ok places =>
          let response : CachedSearchResponse := ⟨normalizePlaces places req, now⟩
          (.ok response false false,
            cachePut looked.2 now cacheKey (.response response) (some SEARCH_CACHE_TTL))

/-! ## Concrete fixtures used by the claim theorems -/

/-- A body whose latitude is `Infinity` and whose limit is `2.5`: every
`typeof` check passes, so validation accepts it. -/
def c2BadBody : RawBody :=
  { location := some ⟨some .posInf, some (.fin 0)⟩
    radius_m := some (.fin 100)
    cuisine := none
    budget := none
    limit := some (.fin (5/2)) }

/-- A well-formed body: Tokyo-station coordinates, radius 1200 m, one
mixed-case cuisine keyword plus an empty entry, no limit. -/
def c2OkBody : RawBody :=
  { location := some ⟨some (.fin 35), some (.fin 139)⟩
    radius_m := some (.fin 1200)
    cuisine := some ["Sushi", ""]
    budget := none
    limit := none }

/-- The spec's end-to-end request:
`{location:{lat:35.681236,lng:139.767125}, radius_m:1200, cuisine:[], limit:5}`. -/
def c3req : SearchRequest :=
  { location := ⟨35.681236, 139.767125⟩
    radius_m := 1200
    cuisine := []
    budget := none
    limit := 5 }

/-- The same request with `limit: 8` (validated limits reach up to 20). -/
def c4req : SearchRequest :=
  { location := ⟨35.681236, 139.767125⟩
    radius_m := 1200
    cuisine := []
    budget := none
    limit := 8 }

/-- A simple validated request used for the cache-hit witness. -/
def c9req : SearchRequest :=
  { location := ⟨35, 139⟩
    radius_m := 1000
    cuisine := []
    budget := none
    limit := 5 }

/-- A stored response for the cache-hit witness. -/
def c9resp : CachedSearchResponse :=
  { results := [], cachedAt := 42 }

/-- A store holding `c9resp` (without expiry) at the canonical key of
`c9req` and nothing else. -/
def c9state : CacheState :=
  fun k => if k = buildCacheKey c9req then some (.response c9resp, none) else none

/-! # Theorems -/

/-! ## Helper lemmas for the rate limiter -/

/-- One consume step preserves the bucket range invariant and stamps the
persisted record with the current time. -/
lemma consume_persisted_inv (cfg : RateLimiterConfig) (existing : Option Bucket) (now : ℚ)
    (hcap : 0 ≤ cfg.capacity) (hint : 0 < cfg.intervalMs)
    (hex : ∀ b, existing = some b →
      0 ≤ b.tokens ∧ b.tokens ≤ cfg.capacity ∧ b.updatedAt ≤ now) :
    0 ≤ (RateLimiter.consume cfg existing now).persisted.tokens ∧
      (RateLimiter.consume cfg existing now).persisted.tokens ≤ cfg.capacity ∧
      (RateLimiter.consume cfg existing now).persisted.updatedAt = now := by
  have htok : 0 ≤ refillTokens cfg existing now ∧ refillTokens cfg existing now ≤ cfg.capacity := by
    cases existing with
    | none => simpa [refillTokens] using hcap
    | some b =>
      obtain ⟨hb0, hbc, hbu⟩ := hex b rfl
      have hrefill : 0 ≤ (now - b.updatedAt) / cfg.intervalMs * cfg.capacity := by
        have h1 : 0 ≤ now - b.updatedAt := by linarith
        positivity
      constructor
      · exact le_min hcap (by linarith)
      · exact min_le_left _ _
  unfold RateLimiter.consume
  by_cases hlt : refillTokens cfg existing now < 1
  · simp only [hlt, if_true, if_pos]
    exact ⟨htok.1, htok.2, by trivial⟩
  · simp only [hlt, if_false, if_neg]
    exact ⟨by linarith [not_lt.mp hlt], by linarith [htok.2], by trivial⟩

/-- Bucket range invariant along any `rlRun` whose clock is non-decreasing
and starts no earlier than the start bucket's stamp. -/
lemma rlRun_inv (cfg : RateLimiterConfig) (hcap : 0 ≤ cfg.capacity)
    (hint : 0 < cfg.intervalMs) :
    ∀ (ts : List ℚ) (st : Option Bucket), ts.Chain' (· ≤ ·) →
      (∀ b, st = some b → 0 ≤ b.tokens ∧ b.tokens ≤ cfg.capacity ∧
        (∀ t, ts.head? = some t → b.updatedAt ≤ t)) →
      ∀ p ∈ rlRun cfg st ts, 0 ≤ p.tokens ∧ p.tokens ≤ cfg.capacity := by
  intro ts
  induction ts with
  | nil => intro st _ _ p hp; simp [rlRun] at hp
  | cons t ts ih =>
    intro st hchain hst p hp
    rw [List.chain'_cons'] at hchain
    have hstep := consume_persisted_inv cfg st t hcap hint (by
      intro b hb
      obtain ⟨h1, h2, h3⟩ := hst b hb
      exact ⟨h1, h2, h3 t rfl⟩)
    simp only [rlRun, List.mem_cons] at hp
    rcases hp with hp | hp
    · subst hp; exact ⟨hstep.1, hstep.2.1⟩
    · refine ih (some (RateLimiter.consume cfg st t).persisted) hchain.2 ?_ p hp
      intro b hb
      obtain rfl : (RateLimiter.consume cfg st t).persisted = b := by
        simpa using hb
      refine ⟨hstep.1, hstep.2.1, ?_⟩
      intro u hu
      rw [hstep.2.2]
      exact hchain.1 u hu

/-! ## C10 -/

/-- **C10**: for every sequence of consume calls on one key with a
non-decreasing clock, starting from an absent bucket, every bucket record
the rate limiter persists satisfies `0 ≤ tokens ≤ capacity`. -/
theorem C10_persisted_bucket_range (cfg : RateLimiterConfig) (ts : List ℚ)
    (hcap : 0 ≤ cfg.capacity) (hint : 0 < cfg.intervalMs) (hts : ts.Chain' (· ≤ ·)) :
    ∀ p ∈ rlRun cfg none ts, 0 ≤ p.tokens ∧ p.tokens ≤ cfg.capacity :=
  rlRun_inv cfg hcap hint ts none hts (by intro b hb; cases hb)

/-- Witness for C10 at the deployed configuration and a concrete
three-call schedule. -/
theorem C10_persisted_bucket_range_witness :
    (0:ℚ) ≤ 10 ∧ (0:ℚ) < 60000 ∧ ([0, 1000, 2000] : List ℚ).Chain' (· ≤ ·) ∧
      ∀ p ∈ rlRun ⟨10, 60000, 120⟩ none [0, 1000, 2000], 0 ≤ p.tokens ∧ p.tokens ≤ 10 :=
  ⟨by norm_num, by norm_num, by simp [List.chain'_cons]; norm_num,
    C10_persisted_bucket_range ⟨10, 60000, 120⟩ [0, 1000, 2000] (by norm_num) (by norm_num)
      (by simp [List.chain'_cons]; norm_num)⟩

/-! ## C8 -/

/-- **C8**: a stored rate-limit record that fails JSON decoding is treated
exactly as an absent bucket: the limiter reinitializes to full capacity,
so (for capacity ≥ 1) the request is allowed and the persisted record
holds `capacity - 1` tokens. -/
theorem C8_corrupt_record_as_absent (cfg : RateLimiterConfig) (st : CacheState)
    (key : String) (now : ℚ) (e : Option ℚ)
    (hcap : 1 ≤ cfg.capacity)
    (hcorrupt : st ("ratelimit:" ++ key) = some (.corrupt, e)) :
    (RateLimiter.consumeSt cfg st key now).1 = RateLimiter.consume cfg none now ∧
      (RateLimiter.consumeSt cfg st key now).1.allowed = true ∧
      (RateLimiter.consumeSt cfg st key now).1.persisted.tokens = cfg.capacity - 1 := by
  have hread : (cacheGet st now ("ratelimit:" ++ key)).1 = none := by
    unfold cacheGet
    rw [hcorrupt]
    rcases e with _ | e'
    · rfl
    · dsimp only
      split
      · rfl
      · rfl
  have houtcome : (RateLimiter.consumeSt cfg st key now).1 = RateLimiter.consume cfg none now := by
    simp only [RateLimiter.consumeSt, hread]
  have hnotlt : ¬ refillTokens cfg none now < 1 := by
    simp only [refillTokens, not_lt]
    linarith
  have hallowed : (RateLimiter.consume cfg none now).allowed = true := by
    unfold RateLimiter.consume
    rw [if_neg hnotlt]
  have htokens : (RateLimiter.consume cfg none now).persisted.tokens = cfg.capacity - 1 := by
    unfold RateLimiter.consume
    rw [if_neg hnotlt]
    simp [refillTokens]
  exact ⟨houtcome, houtcome ▸ hallowed, houtcome ▸ htokens⟩

/-- Witness for C8: a concrete store holding an undecodable record at the
bucket key of `team:alpha`. -/
theorem C8_corrupt_record_as_absent_witness :
    (1:ℚ) ≤ 10 ∧
      ((fun k => if k = "ratelimit:team:alpha" then some (StoredVal.corrupt, none) else none :
        CacheState) ("ratelimit:" ++ "team:alpha") = some (.corrupt, none)) ∧
      (RateLimiter.consumeSt ⟨10, 60000, 120⟩
        (fun k => if k = "ratelimit:team:alpha" then some (StoredVal.corrupt, none) else none)
        "team:alpha" 0).1.allowed = true :=
  ⟨by norm_num, by decide,
    (C8_corrupt_record_as_absent ⟨10, 60000, 120⟩ _ "team:alpha" 0 none (by norm_num)
      (by decide)).2.1⟩

/-! ## C5 -/

/-- **C5** counterexample: a present rating of `0` does *not* yield a
rating component of `0` - JavaScript truthiness sends `rating = 0` into the
`0.6` fallback branch, so `0.6` is not reported only for absent ratings. -/
theorem C5_rating_zero_cex : ratingScore (some 0) = 0.6 ∧ (0.6 : ℚ) ≠ 0 :=
  ⟨by simp [ratingScore], by norm_num⟩

/-- **C5** amended: the rating component equals `rating/5` for every
present *nonzero* rating and `0.6` for an absent rating; a present rating
of `0` is treated exactly like an absent one (the full fit score
coincides). -/
theorem C5_rating_component (r : ℚ) (hr : r ≠ 0) :
    ratingScore (some r) = r / 5 ∧ ratingScore none = 0.6 ∧
      ∀ (d rad : ℚ) (p : Option String) (o : Option Bool),
        computeFitScore (some 0) d rad p o = computeFitScore none d rad p o :=
  ⟨by simp [ratingScore, hr], rfl,
    fun d rad p o => by simp [computeFitScore, ratingScore]⟩

/-- Witness for C5 at the rating 4.2 of the first mock template. -/
theorem C5_rating_component_witness :
    ((4.2 : ℚ) ≠ 0) ∧ ratingScore (some 4.2) = 4.2 / 5 :=
  ⟨by norm_num, (C5_rating_component 4.2 (by norm_num)).1⟩

/-! ## C6 -/

/-- The final rounding step keeps a composite in `[0,1]` inside `[0,1]`. -/
lemma fitRound_mem (c : ℚ) (h0 : 0 ≤ c) (h1 : c ≤ 1) :
    0 ≤ (round (c * 1000) : ℚ) / 1000 ∧ (round (c * 1000) : ℚ) / 1000 ≤ 1 := by
  have hlo : (0:ℤ) ≤ round (c * 1000) := by
    rw [round_eq]
    exact Int.le_floor.mpr (by push_cast; linarith)
  have hhi : round (c * 1000) ≤ 1000 := by
    rw [round_eq]
    calc ⌊c * 1000 + 1/2⌋ ≤ ⌊(2001 : ℚ)/2⌋ := Int.floor_le_floor (by linarith)
    _ = 1000 := by norm_num
  constructor
  · exact div_nonneg (by exact_mod_cast hlo) (by norm_num)
  · rw [div_le_one (by norm_num)]
    exact_mod_cast hhi

/-- **C6**: for every place whose rating, when present, lies in `[0,5]`
(and with the non-negative distance the pipeline always supplies), the
fit score lies in `[0,1]`; and max rating, zero distance, the cheapest
price tier and open-now attain exactly `1`. -/
theorem C6_fit_score_range :
    (∀ (rating : Option ℚ) (d rad : ℚ) (p : Option String) (o : Option Bool),
      (∀ r, rating = some r → 0 ≤ r ∧ r ≤ 5) → 0 ≤ d →
      0 ≤ computeFitScore rating d rad p o ∧ computeFitScore rating d rad p o ≤ 1) ∧
    ∀ rad : ℚ, computeFitScore (some 5) 0 rad (some "PRICE_LEVEL_FREE") (some true) = 1 := by
  constructor
  · intro rating d rad p o hr hd
    have hrs0 : 0 ≤ ratingScore rating := by
      cases rating with
      | none => norm_num [ratingScore]
      | some r =>
        obtain ⟨h0, h5⟩ := hr r rfl
        by_cases hz : r = 0 <;> simp [ratingScore, hz] <;> linarith
    have hrs1 : ratingScore rating ≤ 1 := by
      cases rating with
      | none => norm_num [ratingScore]
      | some r =>
        obtain ⟨h0, h5⟩ := hr r rfl
        by_cases hz : r = 0 <;> simp [ratingScore, hz] <;> linarith
    have hmax : (0:ℚ) < max rad 1 := lt_of_lt_of_le zero_lt_one (le_max_right rad 1)
    have hmin0 : 0 ≤ min 1 (d / max rad 1) :=
      le_min (by norm_num) (div_nonneg hd hmax.le)
    have hmin1 : min 1 (d / max rad 1) ≤ 1 := min_le_left _ _
    have hps0 : 0 ≤ priceToScore p := by
      rcases p with _ | s
      · norm_num [priceToScore]
      · simp only [priceToScore]
        split_ifs <;> norm_num
    have hps1 : priceToScore p ≤ 1 := by
      rcases p with _ | s
      · norm_num [priceToScore]
      · simp only [priceToScore]
        split_ifs <;> norm_num
    rcases o with _ | b
    · simp only [computeFitScore]
      exact fitRound_mem _ (by linarith) (by linarith)
    · cases b
      · simp only [computeFitScore]
        exact fitRound_mem _ (by linarith) (by linarith)
      · simp only [computeFitScore]
        exact fitRound_mem _ (by linarith) (by linarith)
  · intro rad
    have hmax : (0:ℚ) < max rad 1 := lt_of_lt_of_le zero_lt_one (le_max_right rad 1)
    simp only [computeFitScore, ratingScore, priceToScore]
    norm_num [round_eq]

/-- Witness for C6 at a concrete in-range place. -/
theorem C6_fit_score_range_witness :
    (∀ r : ℚ, (some (4:ℚ) : Option ℚ) = some r → 0 ≤ r ∧ r ≤ 5) ∧ (0:ℚ) ≤ 100 ∧
      (0 ≤ computeFitScore (some 4) 100 1000 (some "PRICE_LEVEL_MODERATE") (some true) ∧
        computeFitScore (some 4) 100 1000 (some "PRICE_LEVEL_MODERATE") (some true) ≤ 1) :=
  ⟨by intro r h; injection h with h2; subst h2; norm_num, by norm_num,
    C6_fit_score_range.1 (some 4) 100 1000 (some "PRICE_LEVEL_MODERATE") (some true)
      (by intro r h; injection h with h2; subst h2; norm_num) (by norm_num)⟩

/-! ## C7 -/

/-- Sorting is a canonical form: permuted lists sort to the same list. -/
lemma insertionSort_eq_of_perm (l1 l2 : List String) (h : l1.Perm l2) :
    List.insertionSort (· ≤ ·) l1 = List.insertionSort (· ≤ ·) l2 :=
  List.eq_of_perm_of_sorted
    ((List.perm_insertionSort _ l1).trans (h.trans (List.perm_insertionSort _ l2).symm))
    (List.sorted_insertionSort _ l1) (List.sorted_insertionSort _ l2)

/-- **C7**: two validated requests that differ only in the order of their
cuisine lists (same location, radius, budget) produce the identical
canonical cache key string. -/
theorem C7_cache_key_cuisine_order (r1 r2 : SearchRequest)
    (hloc : r1.location = r2.location) (hrad : r1.radius_m = r2.radius_m)
    (hbud : r1.budget = r2.budget) (hcui : r1.cuisine.Perm r2.cuisine) :
    buildCacheKey r1 = buildCacheKey r2 := by
  simp only [buildCacheKey, hloc, hrad, hbud, insertionSort_eq_of_perm r1.cuisine r2.cuisine hcui]

/-- Witness for C7: `["b","a"]` and `["a","b"]` yield the same key. -/
theorem C7_cache_key_cuisine_order_witness :
    (["b", "a"] : List String).Perm ["a", "b"] ∧
      buildCacheKey ⟨⟨35, 139⟩, 1000, ["b", "a"], none, 5⟩ =
        buildCacheKey ⟨⟨35, 139⟩, 1000, ["a", "b"], none, 5⟩ :=
  ⟨by decide,
    C7_cache_key_cuisine_order ⟨⟨35, 139⟩, 1000, ["b", "a"], none, 5⟩
      ⟨⟨35, 139⟩, 1000, ["a", "b"], none, 5⟩ rfl rfl rfl (by decide)⟩

/-! ## C1 -/

/-- **C1** counterexample: with the deployed configuration, a bucket at
`{tokens: 0, updatedAt: 0}` is denied both 100 ms and 200 ms later with
the *same* `retryAfterSeconds = 6`, so `retryAfterSeconds` does not
strictly decrease as the elapsed time since denial increases. -/
theorem C1_retry_not_strictly_decreasing_cex :
    (RateLimiter.consume ⟨10, 60000, 120⟩ (some ⟨0, 0⟩) 100).allowed = false ∧
      (RateLimiter.consume ⟨10, 60000, 120⟩ (some ⟨0, 0⟩) 200).allowed = false ∧
      (RateLimiter.consume ⟨10, 60000, 120⟩ (some ⟨0, 0⟩) 100).retryAfterSeconds = 6 ∧
      (RateLimiter.consume ⟨10, 60000, 120⟩ (some ⟨0, 0⟩) 200).retryAfterSeconds = 6 := by
  have h100 : refillTokens ⟨10, 60000, 120⟩ (some ⟨0, 0⟩) 100 = 1/60 := by
    norm_num [refillTokens]
  have h200 : refillTokens ⟨10, 60000, 120⟩ (some ⟨0, 0⟩) 200 = 1/30 := by
    norm_num [refillTokens]
  refine ⟨?_, ?_, ?_, ?_⟩ <;>
      simp [RateLimiter.consume, h100, h200] <;> norm_num <;>
    rw [Int.ceil_eq_iff] <;> norm_num

/-- **C1** amended: whenever the refilled token count is below 1,
`createRateLimiter`'s consume denies and reports
`retryAfterSeconds = ceil((1 - tokens) / capacity * intervalMs / 1000)`
(the inlined `consumeToken` of index.ts instead reports the constant
`ceil(intervalMs / capacity / 1000)`); for a denied key the reported value
is *non-increasing* in the elapsed time, and strictly decreases once the
elapsed time grows by at least one full second while the key is still
denied. -/
theorem C1_retry_after_formula :
    (∀ (cfg : RateLimiterConfig) (existing : Option Bucket) (now : ℚ),
      refillTokens cfg existing now < 1 →
      (RateLimiter.consume cfg existing now).allowed = false ∧
        (RateLimiter.consume cfg existing now).retryAfterSeconds =
          Int.ceil ((1 - refillTokens cfg existing now) / cfg.capacity * cfg.intervalMs / 1000)) ∧
    (∀ (cfg : RateLimiterConfig) (b : Bucket) (t1 t2 : ℚ),
      1 ≤ cfg.capacity → 0 < cfg.intervalMs → b.updatedAt ≤ t1 → t1 ≤ t2 →
      refillTokens cfg (some b) t2 < 1 →
      ((RateLimiter.consume cfg (some b) t2).retryAfterSeconds ≤
        (RateLimiter.consume cfg (some b) t1).retryAfterSeconds ∧
      (t1 + 1000 ≤ t2 →
        (RateLimiter.consume cfg (some b) t2).retryAfterSeconds <
          (RateLimiter.consume cfg (some b) t1).retryAfterSeconds))) := by
  constructor
  · intro cfg existing now h
    unfold RateLimiter.consume
    rw [if_pos h]
    exact ⟨rfl, rfl⟩
  · intro cfg b t1 t2 hcap hint hu ht h2
    have hcap0 : (0:ℚ) < cfg.capacity := by linarith
    have hf2cap : b.tokens + (t2 - b.updatedAt) / cfg.intervalMs * cfg.capacity ≤
        cfg.capacity := by
      by_contra hgt
      push_neg at hgt
      have hmin : refillTokens cfg (some b) t2 = cfg.capacity := by
        simp only [refillTokens]
        exact min_eq_left hgt.le
      rw [hmin] at h2
      linarith
    have hf1f2 : b.tokens + (t1 - b.updatedAt) / cfg.intervalMs * cfg.capacity ≤
        b.tokens + (t2 - b.updatedAt) / cfg.intervalMs * cfg.capacity := by
      gcongr
    have hr2 : refillTokens cfg (some b) t2 =
        b.tokens + (t2 - b.updatedAt) / cfg.intervalMs * cfg.capacity := by
      simp only [refillTokens]
      exact min_eq_right hf2cap
    have hr1 : refillTokens cfg (some b) t1 =
        b.tokens + (t1 - b.updatedAt) / cfg.intervalMs * cfg.capacity := by
      simp only [refillTokens]
      exact min_eq_right (le_trans hf1f2 hf2cap)
    have h1 : refillTokens cfg (some b) t1 < 1 := by
      rw [hr1]
      rw [hr2] at h2
      linarith
    have hv2 : (RateLimiter.consume cfg (some b) t2).retryAfterSeconds =
        Int.ceil ((1 - refillTokens cfg (some b) t2) / cfg.capacity * cfg.intervalMs / 1000) := by
      unfold RateLimiter.consume
      rw [if_pos h2]
    have hv1 : (RateLimiter.consume cfg (some b) t1).retryAfterSeconds =
        Int.ceil ((1 - refillTokens cfg (some b) t1) / cfg.capacity * cfg.intervalMs / 1000) := by
      unfold RateLimiter.consume
      rw [if_pos h1]
    have hdiff : (1 - refillTokens cfg (some b) t2) / cfg.capacity * cfg.intervalMs / 1000 =
        (1 - refillTokens cfg (some b) t1) / cfg.capacity * cfg.intervalMs / 1000
          - (t2 - t1) / 1000 := by
      rw [hr1, hr2]
      field_simp
      ring
    constructor
    · rw [hv1, hv2, hdiff]
      refine Int.ceil_le_ceil ?_
      have : (0:ℚ) ≤ (t2 - t1) / 1000 := div_nonneg (by linarith) (by norm_num)
      linarith
    · intro hsec
      rw [hv1, hv2, hdiff]
      have hge1 : (1:ℚ) ≤ (t2 - t1) / 1000 := by
        rw [le_div_iff₀ (by norm_num)]
        linarith
      have hstep : Int.ceil ((1 - refillTokens cfg (some b) t1) / cfg.capacity * cfg.intervalMs
          / 1000 - (t2 - t1) / 1000) ≤
          Int.ceil ((1 - refillTokens cfg (some b) t1) / cfg.capacity * cfg.intervalMs
            / 1000 - 1) := Int.ceil_le_ceil (by linarith)
      have hone : Int.ceil ((1 - refillTokens cfg (some b) t1) / cfg.capacity * cfg.intervalMs
          / 1000 - 1) =
          Int.ceil ((1 - refillTokens cfg (some b) t1) / cfg.capacity * cfg.intervalMs
            / 1000) - 1 := by
        have hsub := Int.ceil_sub_int
          ((1 - refillTokens cfg (some b) t1) / cfg.capacity * cfg.intervalMs / 1000) 1
        simp only [Int.cast_one] at hsub
        exact hsub
      omega

/-- Witness for C1 at the deployed configuration: an exhausted bucket
queried 100 ms and 1100 ms after exhaustion. -/
theorem C1_retry_after_formula_witness :
    (1:ℚ) ≤ 10 ∧ (0:ℚ) < 60000 ∧ (Bucket.mk 0 0).updatedAt ≤ 100 ∧ (100:ℚ) ≤ 1100 ∧
      refillTokens ⟨10, 60000, 120⟩ (some ⟨0, 0⟩) 1100 < 1 ∧ (100:ℚ) + 1000 ≤ 1100 ∧
      (RateLimiter.consume ⟨10, 60000, 120⟩ (some ⟨0, 0⟩) 1100).retryAfterSeconds <
        (RateLimiter.consume ⟨10, 60000, 120⟩ (some ⟨0, 0⟩) 100).retryAfterSeconds :=
  ⟨by norm_num, by norm_num, by norm_num, by norm_num, by norm_num [refillTokens], by norm_num,
    (C1_retry_after_formula.2 ⟨10, 60000, 120⟩ ⟨0, 0⟩ 100 1100 (by norm_num) (by norm_num)
      (by norm_num) (by norm_num) (by norm_num [refillTokens])).2 (by norm_num)⟩

/-! ## C2 -/

lemma charToLower_idem (c : Char) : charToLower (charToLower c) = charToLower c := by
  by_cases h : 65 ≤ c.toNat ∧ c.toNat ≤ 90
  · have hv : (c.toNat + 32).isValidChar := Or.inl (by omega)
    have ht : (Char.ofNat (c.toNat + 32)).toNat = c.toNat + 32 := by
      unfold Char.ofNat
      rw [dif_pos hv]
      rfl
    have h1 : charToLower c = Char.ofNat (c.toNat + 32) := by
      rw [charToLower, if_pos h]
    rw [h1, charToLower, ht, if_neg (by omega)]
  · have h1 : charToLower c = c := by rw [charToLower, if_neg h]
    rw [h1]
    exact h1

lemma jsToLower_idem (s : String) : jsToLower (jsToLower s) = jsToLower s := by
  show String.mk ((s.data.map charToLower).map charToLower) = String.mk (s.data.map charToLower)
  rw [List.map_map]
  exact congrArg String.mk (List.map_congr_left (fun c _ => charToLower_idem c))

/-- **C2** counterexample: `safeParseBody` accepts a body whose latitude is
`Infinity` (not finite) and whose limit is `2.5` (not an integer), because
it only checks `typeof === 'number'` on the location and never forces the
limit integral. -/
theorem C2_validation_cex :
    safeParseBody c2BadBody = .ok ⟨.posInf, .fin 0, .fin 100, [], none, .fin (5/2)⟩ ∧
      JNum.isFinite .posInf = false ∧ Int.fract ((5:ℚ)/2) ≠ 0 := by
  refine ⟨?_, rfl, ?_⟩
  · simp only [safeParseBody, c2BadBody, JNum.isNaN, JNum.jle, JNum.jmin, JNum.jmax, clamp,
      Option.getD, Bool.or_self, Bool.false_or, List.map_nil, List.filter_nil]
    norm_num
  · rw [Int.fract]
    norm_num

/-- **C2** amended: every body accepted by `safeParseBody` has a finite
positive radius at most 50000 and (unless the supplied limit was NaN) a
limit clamped into `[1, 20]` - though not necessarily an integer - and
every cuisine entry is a non-empty lowercase string; the latitude and the
longitude are only guaranteed to be *numbers* (NaN and ±Infinity pass).
Validation fails for every body with a missing/non-number location
coordinate or a missing, NaN or non-positive radius. -/
theorem C2_validation :
    (∀ (body : RawBody) (v : ParsedRequest), safeParseBody body = .ok v →
      (∃ q, v.radius_m = .fin q ∧ 0 < q ∧ q ≤ 50000) ∧
      (v.limit.isNaN = false → ∃ q, v.limit = .fin q ∧ 1 ≤ q ∧ q ≤ 20) ∧
      (∀ s ∈ v.cuisine, s ≠ "" ∧ jsToLower s = s)) ∧
    (∀ body : RawBody,
      (body.location = none ∨
        (∃ loc, body.location = some loc ∧ (loc.lat = none ∨ loc.lng = none)) ∨
        body.radius_m = none ∨
        (∃ r, body.radius_m = some r ∧ (r.isNaN = true ∨ r.jle (.fin 0) = true))) →
      ∃ e, safeParseBody body = .error e) := by
  constructor
  · intro body v h
    obtain ⟨bloc, brad, bcui, bbud, blim⟩ := body
    rcases bloc with _ | loc
    · simp [safeParseBody] at h
    rcases loc with ⟨blat, blng⟩
    rcases blat with _ | lat
    · simp [safeParseBody] at h
    rcases blng with _ | lng
    · simp [safeParseBody] at h
    rcases brad with _ | r
    · simp [safeParseBody] at h
    simp only [safeParseBody] at h
    by_cases hc : (r.isNaN || r.jle (.fin 0)) = true
    · rw [if_pos hc] at h
      cases h
    rw [if_neg hc] at h
    rw [Bool.or_eq_true, not_or] at hc
    obtain ⟨hnan, hle⟩ := hc
    obtain rfl : _ = v := by injection h
    refine ⟨?_, ?_, ?_⟩
    · -- radius
      rcases r with q | _ | _ | _
      · have hq : ¬ q ≤ 0 := by
          intro hq0
          exact hle (by simp [JNum.jle, hq0])
        exact ⟨min q 50000, rfl, lt_min (by linarith) (by norm_num), min_le_right _ _⟩
      · exact ⟨50000, rfl, by norm_num, by norm_num⟩
      · exact (hle (by simp [JNum.jle])).elim
      · exact (hnan (by simp [JNum.isNaN])).elim
    · -- limit
      intro hlnan
      rcases hw : blim.getD (.fin 5) with q | _ | _ | _
      · exact ⟨min 20 (max 1 q), by simp [clamp, hw, JNum.jmax, JNum.jmin],
          le_min (by norm_num) (le_max_left _ _), min_le_left _ _⟩
      · exact ⟨20, by simp [clamp, hw, JNum.jmax, JNum.jmin], by norm_num, by norm_num⟩
      · exact ⟨1, by simp [clamp, hw, JNum.jmax, JNum.jmin], by norm_num, by norm_num⟩
      · exfalso
        simp only [clamp, hw, JNum.jmax, JNum.jmin, JNum.isNaN] at hlnan
        exact Bool.noConfusion hlnan
    · -- cuisine
      intro s hs
      simp only [List.mem_filter, List.mem_map, decide_not] at hs
      obtain ⟨⟨t, _, rfl⟩, hne⟩ := hs
      refine ⟨by simpa using hne, jsToLower_idem t⟩
  · intro body hbad
    obtain ⟨bloc, brad, bcui, bbud, blim⟩ := body
    rcases hbad with hb | ⟨loc, hb, hb2⟩ | hb | ⟨r, hb, hb2⟩
    · cases hb
      exact ⟨_, rfl⟩
    · simp only at hb
      subst hb
      rcases loc with ⟨blat, blng⟩
      rcases hb2 with hb2 | hb2 <;> cases hb2
      · exact ⟨_, rfl⟩
      · rcases blat with _ | lat
        · exact ⟨_, rfl⟩
        · exact ⟨_, rfl⟩
    · simp only at hb
      subst hb
      rcases bloc with _ | ⟨blat, blng⟩
      · exact ⟨_, rfl⟩
      rcases blat with _ | lat
      · exact ⟨_, rfl⟩
      rcases blng with _ | lng
      · exact ⟨_, rfl⟩
      exact ⟨_, rfl⟩
    · simp only at hb
      subst hb
      rcases bloc with _ | ⟨blat, blng⟩
      · exact ⟨_, rfl⟩
      rcases blat with _ | lat
      · exact ⟨_, rfl⟩
      rcases blng with _ | lng
      · exact ⟨_, rfl⟩
      have hcond : (r.isNaN || r.jle (.fin 0)) = true := by
        rcases hb2 with hb2 | hb2 <;> simp [hb2]
      refine ⟨"radius_m must be a positive number.", ?_⟩
      simp only [safeParseBody]
      rw [if_pos hcond]

/-- Witness for C2: the well-formed body is accepted with radius 1200,
limit 5 and cuisine `["sushi"]`; the location-less body is rejected. -/
theorem C2_validation_witness :
    (safeParseBody c2OkBody = .ok ⟨.fin 35, .fin 139, .fin 1200, ["sushi"], none, .fin 5⟩) ∧
      (∃ q, (JNum.fin (1200:ℚ)) = .fin q ∧ 0 < q ∧ q ≤ 50000) ∧
      (∃ e, safeParseBody ⟨none, some (.fin 100), none, none, none⟩ = .error e) := by
  have hcu : (List.map jsToLower ["Sushi", ""]).filter (fun s => s ≠ "") = ["sushi"] := by
    decide
  have hok : safeParseBody c2OkBody =
      .ok ⟨.fin 35, .fin 139, .fin 1200, ["sushi"], none, .fin 5⟩ := by
    simp only [safeParseBody, c2OkBody, Option.getD]
    rw [if_neg (by norm_num [JNum.isNaN, JNum.jle])]
    rw [hcu]
    simp only [JNum.jmin, clamp, JNum.jmax]
    norm_num
  refine ⟨hok, ?_, ?_⟩
  · have h2 := (C2_validation.1 c2OkBody _ hok).1
    simpa using h2
  · exact C2_validation.2 ⟨none, some (.fin 100), none, none, none⟩ (Or.inl rfl)

/-! ## C4 -/

/-- **C4** counterexample: a validated request with `limit = 8` receives
only 5 mock results, not 8 - `buildMockSearchResponse` caps the count at
the catalog size, so the catalog is never cycled. -/
theorem C4_mock_count_cex :
    (buildMockSearchResponse c4req 0).results.length = 5 ∧
      (buildMockSearchResponse c4req 0).results.length ≠ 8 := by
  constructor <;> simp [buildMockSearchResponse, c4req, MOCK_PLACE_TEMPLATES]

/-- **C4** amended: for every validated request handled without an
upstream credential, the mock generator produces
`min(request.limit, 5)` synthetic results, where 5 is the size of the
fixed template catalog; the cycling index arithmetic never wraps because
the count is capped at the catalog size. -/
theorem C4_mock_count (req : SearchRequest) (now : ℚ) :
    (buildMockSearchResponse req now).results.length = min req.limit 5 := by
  simp [buildMockSearchResponse, MOCK_PLACE_TEMPLATES]

/-! ## Geometry: the haversine distance of a displaced point is the
displacement distance (exactly, over ℝ) -/

lemma sqrt_one_add_div_sq (y x : ℝ) (hx : x ≠ 0) :
    Real.sqrt (1 + (y / x) ^ 2) = Real.sqrt (x ^ 2 + y ^ 2) / |x| := by
  have h1 : 1 + (y / x) ^ 2 = (x ^ 2 + y ^ 2) / x ^ 2 := by
    field_simp
  rw [h1, Real.sqrt_div (by positivity) (x ^ 2), Real.sqrt_sq_eq_abs]

lemma cos_atan2 (y x : ℝ) (h : ¬(x = 0 ∧ y = 0)) :
    Real.cos (atan2 y x) = x / Real.sqrt (x ^ 2 + y ^ 2) := by
  have hsq : 0 < x ^ 2 + y ^ 2 := by
    rcases not_and_or.mp h with hx | hy
    · have h2 : 0 < |x| := abs_pos.mpr hx
      nlinarith [sq_abs x, sq_nonneg y]
    · have h2 : 0 < |y| := abs_pos.mpr hy
      nlinarith [sq_abs y, sq_nonneg x]
  have hs : 0 < Real.sqrt (x ^ 2 + y ^ 2) := Real.sqrt_pos.mpr hsq
  unfold atan2
  by_cases hx : 0 < x
  · rw [if_pos hx, Real.cos_arctan, sqrt_one_add_div_sq y x hx.ne', abs_of_pos hx]
    field_simp
  · rw [if_neg hx]
    by_cases hx2 : x < 0
    · have habs : |x| = -x := abs_of_neg hx2
      by_cases hy : 0 ≤ y
      · rw [if_pos hx2, if_pos hy, Real.cos_add_pi, Real.cos_arctan,
          sqrt_one_add_div_sq y x hx2.ne, habs]
        field_simp
      · rw [if_pos hx2, if_neg hy, Real.cos_sub_pi, Real.cos_arctan,
          sqrt_one_add_div_sq y x hx2.ne, habs]
        field_simp
    · have hx0 : x = 0 := le_antisymm (not_lt.mp hx) (not_lt.mp hx2)
      subst hx0
      by_cases hy : 0 < y
      · rw [if_neg (lt_irrefl 0), if_pos hy, Real.cos_pi_div_two]
        simp
      · have hy2 : y < 0 := by
          rcases lt_trichotomy y 0 with h1 | h1 | h1
          · exact h1
          · exact absurd ⟨rfl, h1⟩ h
          · exact absurd h1 hy
        rw [if_neg (lt_irrefl 0), if_neg hy, if_pos hy2, Real.cos_neg, Real.cos_pi_div_two]
        simp

lemma atan2_sin_cos (t : ℝ) (h0 : 0 ≤ t) (hπ : t < Real.pi / 2) :
    atan2 (Real.sin t) (Real.cos t) = t := by
  have hc : 0 < Real.cos t :=
    Real.cos_pos_of_mem_Ioo ⟨by linarith [Real.pi_pos], hπ⟩
  unfold atan2
  rw [if_pos hc, ← Real.tan_eq_sin_div_cos, Real.arctan_tan (by linarith [Real.pi_pos]) hπ]

lemma sin_sq_half (t : ℝ) : Real.sin (t / 2) ^ 2 = (1 - Real.cos t) / 2 := by
  have h := Real.cos_two_mul (t / 2)
  rw [show 2 * (t / 2) = t by ring] at h
  have h2 := Real.sin_sq_add_cos_sq (t / 2)
  linarith

lemma cos_sq_half (t : ℝ) : Real.cos (t / 2) ^ 2 = (1 + Real.cos t) / 2 := by
  have h := Real.cos_two_mul (t / 2)
  rw [show 2 * (t / 2) = t by ring] at h
  have h2 := Real.sin_sq_add_cos_sq (t / 2)
  linarith

lemma atan2_zero_zero : atan2 0 0 = 0 := by
  simp [atan2]

lemma degRad (z w : ℝ) : (z * 180 / Real.pi - w) * Real.pi / 180 = z - w * Real.pi / 180 := by
  have h := Real.pi_ne_zero
  field_simp
  ring

lemma degRad2 (w z : ℝ) :
    ((w * Real.pi / 180 + z) * 180 / Real.pi - w) * Real.pi / 180 = z := by
  have h := Real.pi_ne_zero
  field_simp
  ring

lemma degRad3 (z : ℝ) : z * 180 / Real.pi * Real.pi / 180 = z := by
  have h := Real.pi_ne_zero
  field_simp

set_option maxHeartbeats 1000000 in
/-- On the exact sphere model, `haversineRaw` recovers the displacement
distance: the great-circle distance from the origin to
`displaceCoordinate origin d bearing` is exactly `d`, for any
`0 ≤ d < π · 6371000` and `|lat| ≤ 90`. -/
theorem haversineRaw_displace (lat lng d brg : ℝ) (h0 : 0 ≤ d)
    (hd : d < 6371000 * Real.pi) (hlat : |lat| ≤ 90) :
    haversineRaw lat lng (displaceCoordinate lat lng d brg).1
      (displaceCoordinate lat lng d brg).2 = d := by
  have hπ := Real.pi_pos
  have hπne := Real.pi_ne_zero
  simp only [displaceCoordinate, haversineRaw]
  rw [degRad]
  rw [degRad2]
  rw [degRad3]
  set φ1 := lat * Real.pi / 180 with hφ1def
  set θ := brg * Real.pi / 180 with hθdef
  set δ := d / 6371000 with hδdef
  have hδ0 : 0 ≤ δ := by rw [hδdef]; positivity
  have hδπ : δ < Real.pi := by
    rw [hδdef, div_lt_iff₀ (by norm_num : (0:ℝ) < 6371000)]
    linarith
  have hφ1b : |φ1| ≤ Real.pi / 2 := by
    rw [hφ1def]
    calc |lat * Real.pi / 180| = |lat| * Real.pi / 180 := by
          rw [abs_div, abs_mul, abs_of_pos hπ, abs_of_pos (by norm_num : (0:ℝ) < 180)]
    _ ≤ 90 * Real.pi / 180 := by gcongr
    _ = Real.pi / 2 := by ring
  have hc1 : 0 ≤ Real.cos φ1 :=
    Real.cos_nonneg_of_mem_Icc ⟨(abs_le.mp hφ1b).1, (abs_le.mp hφ1b).2⟩
  set A := Real.sin φ1 * Real.cos δ + Real.cos φ1 * Real.sin δ * Real.cos θ with hAdef
  have hp1 := Real.sin_sq_add_cos_sq φ1
  have hpδ := Real.sin_sq_add_cos_sq δ
  have hpθ := Real.sin_sq_add_cos_sq θ
  have hkey : A ^ 2 = 1 - (Real.sin δ * Real.sin θ) ^ 2 -
      (Real.sin φ1 * Real.sin δ * Real.cos θ - Real.cos φ1 * Real.cos δ) ^ 2 := by
    rw [hAdef]
    linear_combination (Real.cos δ ^ 2 + Real.sin δ ^ 2 * Real.cos θ ^ 2) * hp1 + hpδ +
      Real.sin δ ^ 2 * hpθ
  have hA2 : A ^ 2 ≤ 1 := by
    rw [hkey]
    have ha := sq_nonneg (Real.sin δ * Real.sin θ)
    have hb := sq_nonneg (Real.sin φ1 * Real.sin δ * Real.cos θ - Real.cos φ1 * Real.cos δ)
    linarith
  have hA1a : -1 ≤ A := by nlinarith [sq_nonneg (A + 1)]
  have hA1b : A ≤ 1 := by nlinarith [sq_nonneg (A - 1)]
  have hs2 : Real.sin (Real.arcsin A) = A := Real.sin_arcsin hA1a hA1b
  set B := Real.cos δ * Real.cos φ1 - Real.sin φ1 * Real.sin δ * Real.cos θ with hBdef
  have h1A : 1 - A ^ 2 = B ^ 2 + (Real.sin δ * Real.sin θ) ^ 2 := by
    rw [hAdef, hBdef]
    linear_combination (-(Real.cos δ ^ 2 + Real.sin δ ^ 2 * Real.cos θ ^ 2)) * hp1 - hpδ -
      Real.sin δ ^ 2 * hpθ
  have hC2 : Real.cos (Real.arcsin A) = Real.sqrt (B ^ 2 + (Real.sin δ * Real.sin θ) ^ 2) := by
    rw [Real.cos_arcsin, h1A]
  rw [hs2]
  set X := Real.cos δ - Real.sin φ1 * A with hXdef
  set Y := Real.sin θ * Real.sin δ * Real.cos φ1 with hYdef
  have hXB : X = Real.cos φ1 * B := by
    rw [hXdef, hAdef, hBdef]
    linear_combination (-(Real.cos δ)) * hp1
  have hsqrtXY : Real.sqrt (X ^ 2 + Y ^ 2) = Real.cos φ1 * Real.cos (Real.arcsin A) := by
    rw [hXB, hYdef, hC2]
    rw [show (Real.cos φ1 * B) ^ 2 + (Real.sin θ * Real.sin δ * Real.cos φ1) ^ 2 =
      Real.cos φ1 ^ 2 * (B ^ 2 + (Real.sin δ * Real.sin θ) ^ 2) from by ring]
    rw [Real.sqrt_mul (by positivity) _, Real.sqrt_sq hc1]
  have hprod : Real.cos φ1 * Real.cos (Real.arcsin A) * Real.cos (atan2 Y X) = X := by
    by_cases hXY : X = 0 ∧ Y = 0
    · rw [hXY.1, hXY.2] at hsqrtXY
      rw [hXY.1, hXY.2, atan2_zero_zero, Real.cos_zero]
      rw [show (0:ℝ) ^ 2 + (0:ℝ) ^ 2 = 0 from by ring, Real.sqrt_zero] at hsqrtXY
      rw [← hsqrtXY]
      ring
    · rw [cos_atan2 Y X hXY, ← hsqrtXY]
      have hpos : 0 < Real.sqrt (X ^ 2 + Y ^ 2) := by
        apply Real.sqrt_pos.mpr
        rcases not_and_or.mp hXY with hX | hY
        · have h2 := abs_pos.mpr hX
          nlinarith [sq_abs X, sq_nonneg Y]
        · have h2 := abs_pos.mpr hY
          nlinarith [sq_abs Y, sq_nonneg X]
      field_simp
  have hsum : Real.sin ((Real.arcsin A - φ1) / 2) ^ 2 +
      Real.cos φ1 * Real.cos (Real.arcsin A) * Real.sin (atan2 Y X / 2) ^ 2 =
      (1 - Real.cos δ) / 2 := by
    rw [sin_sq_half, sin_sq_half, Real.cos_sub, hs2]
    rw [hXdef] at hprod
    linear_combination (-(1:ℝ)/2) * hprod
  rw [hsum]
  have hsin : Real.sqrt ((1 - Real.cos δ) / 2) = Real.sin (δ / 2) := by
    rw [← sin_sq_half]
    exact Real.sqrt_sq (Real.sin_nonneg_of_nonneg_of_le_pi (by linarith) (by linarith))
  have hcos : Real.sqrt (1 - (1 - Real.cos δ) / 2) = Real.cos (δ / 2) := by
    rw [show 1 - (1 - Real.cos δ) / 2 = (1 + Real.cos δ) / 2 from by ring, ← cos_sq_half]
    exact Real.sqrt_sq (le_of_lt (Real.cos_pos_of_mem_Ioo ⟨by linarith, by linarith⟩))
  rw [hsin, hcos, atan2_sin_cos (δ / 2) (by linarith) (by linarith)]
  rw [hδdef]
  field_simp
  ring

/-- Rounded-meter version at rational inputs: the pipeline's recomputed
distance of a displaced mock coordinate is the (rounded) displacement
distance. -/
lemma haversineMeters_displace (lat lng d brg : ℚ) (h0 : 0 ≤ d) (hd : d ≤ 1000000)
    (hlat : |lat| ≤ 90) :
    haversineMeters (lat : ℝ) (lng : ℝ)
      (displaceCoordinate (lat : ℝ) (lng : ℝ) (d : ℝ) (brg : ℝ)).1
      (displaceCoordinate (lat : ℝ) (lng : ℝ) (d : ℝ) (brg : ℝ)).2 = round d := by
  unfold haversineMeters
  rw [haversineRaw_displace (lat : ℝ) (lng : ℝ) (d : ℝ) (brg : ℝ)
    (by exact_mod_cast h0)
    (by
      have hdr : (d : ℝ) ≤ 1000000 := by exact_mod_cast hd
      nlinarith [Real.pi_gt_three])
    (by
      rw [abs_le]
      constructor
      · exact_mod_cast (abs_le.mp hlat).1
      · exact_mod_cast (abs_le.mp hlat).2)]
  exact Rat.round_cast d

/-- Evaluating one mock result: the recomputed haversine distance is the
rounded displacement distance, and the score is the fit score at that
distance. -/
lemma buildSearchResult_mockPlace (req : SearchRequest) (t : MockTemplate) (label : String)
    (uf : Bool) (dist : ℚ) (idx : ℕ) (hlat : |req.location.lat| ≤ 90)
    (h0 : 0 ≤ dist) (hle : dist ≤ 1000000) :
    buildSearchResult (mockPlace req t label uf dist idx) req =
      { place_id := t.id ++ "-" ++ toString idx
        name := if uf then t.name else t.name ++ " (" ++ label ++ ")"
        rating := some t.rating
        distance_m := round dist
        price_level := t.priceLevel
        open_now := t.openNow
        fit_score := computeFitScore (some t.rating) ((round dist : ℤ) : ℚ) req.radius_m
          t.priceLevel t.openNow
        address := some t.address
        types := t.types } := by
  simp only [buildSearchResult, mockPlace, Option.map_some', Option.getD_some]
  rw [haversineMeters_displace req.location.lat req.location.lng dist t.bearingDegrees
    h0 hle hlat]

lemma c3_pairs :
    (buildMockSearchResponse c3req 0).results.map (fun r => (r.distance_m, r.fit_score)) =
      [((180:ℤ), (871/1000:ℚ)), (400, 4/5), (580, 663/1000), (530, 716/1000),
        (470, 673/1000)] := by
  have hlat : |c3req.location.lat| ≤ 90 := by norm_num [c3req, abs_le]
  have hrange : List.range (min c3req.limit MOCK_PLACE_TEMPLATES.length) = [0, 1, 2, 3, 4] :=
    rfl
  have hcui : c3req.cuisine = [] := rfl
  have hrad : c3req.radius_m = 1200 := rfl
  simp only [buildMockSearchResponse, hrange, List.map_cons, List.map_nil]
  norm_num [hcui, hrad, MOCK_PLACE_TEMPLATES, List.getD_cons_zero, List.getD_cons_succ,
    min_def, max_def]
  rw [buildSearchResult_mockPlace c3req _ "定食" true 180 0 hlat (by norm_num) (by norm_num)]
  rw [buildSearchResult_mockPlace c3req _ "ラーメン" true 400 1 hlat (by norm_num) (by norm_num)]
  rw [buildSearchResult_mockPlace c3req _ "カレー" true 580 2 hlat (by norm_num) (by norm_num)]
  rw [buildSearchResult_mockPlace c3req _ "寿司" true 530 3 hlat (by norm_num) (by norm_num)]
  rw [buildSearchResult_mockPlace c3req _ "カフェ" true 470 4 hlat (by norm_num) (by norm_num)]
  simp +decide [computeFitScore, ratingScore, priceToScore, hrad, min_def, max_def]
  norm_num [round_eq]

lemma c3_distances :
    (buildMockSearchResponse c3req 0).results.map (fun r => r.distance_m) =
      [180, 400, 580, 530, 470] := by
  have h := congrArg (List.map Prod.fst) c3_pairs
  simpa [List.map_map, Function.comp] using h

/-- The mock fit scores of the exact-rational model.  The fourth entry sits
on the 715.5 rounding boundary: the program's double arithmetic yields
715.4999999999999 and reports 0.715 there, so only the facts shared by
both values (each lies in `[0.715, 0.716]` and each exceeds the third
score 0.663) are carried into the claim theorems below. -/
lemma c3_scores :
    (buildMockSearchResponse c3req 0).results.map (fun r => r.fit_score) =
      [871/1000, 4/5, 663/1000, 716/1000, 673/1000] := by
  have h := congrArg (List.map Prod.snd) c3_pairs
  simpa [List.map_map, Function.comp] using h

/-! ## C3 -/

/-- **C3** counterexample: for the spec's end-to-end request with no
upstream credential, the synthesized results are *not* in descending
`fit_score` order - the third result scores 0.663 while the fourth scores
more (0.716 in this exact model, 0.715 under the program's doubles), since
the mock path returns `buildMockSearchResponse` directly, skipping the
scorer's sort. -/
theorem C3_mock_not_sorted_cex :
    (buildMockSearchResponse c3req 0).results.length = 5 ∧
      ¬ ((buildMockSearchResponse c3req 0).results.map (fun r => r.fit_score)).Chain'
          (fun a b => b ≤ a) := by
  constructor
  · have h := congrArg List.length c3_scores
    simpa using h
  · rw [c3_scores]
    norm_num [List.chain'_cons, List.chain'_singleton]

/-- **C3** amended: the request
`{location:{lat:35.681236,lng:139.767125}, radius_m:1200, cuisine:[], limit:5}`
with no upstream credential yields exactly 5 synthesized results, each with
`distance_m ≤ 1000` (the distances are 180, 400, 580, 530, 470 m), but in
catalog template order with fit scores 0.871, 0.8, 0.663, then a fourth
score in `[0.715, 0.716]` (its exact composite sits on the 0.7155 rounding
boundary: this model reports 0.716, the program's double arithmetic 0.715),
then 0.673 - not sorted by descending fitness, since the fourth score
strictly exceeds the third. -/
theorem C3_mock_response :
    (buildMockSearchResponse c3req 0).results.length = 5 ∧
      (buildMockSearchResponse c3req 0).results.map (fun r => r.distance_m) =
        [180, 400, 580, 530, 470] ∧
      (∀ r ∈ (buildMockSearchResponse c3req 0).results, r.distance_m ≤ 1000) ∧
      ((buildMockSearchResponse c3req 0).results.map (fun r => r.fit_score)).take 3 =
        [871/1000, 4/5, 663/1000] ∧
      ((buildMockSearchResponse c3req 0).results.map (fun r => r.fit_score)).getD 4 0 =
        673/1000 ∧
      143/200 ≤ ((buildMockSearchResponse c3req 0).results.map (fun r => r.fit_score)).getD 3 0 ∧
      ((buildMockSearchResponse c3req 0).results.map (fun r => r.fit_score)).getD 3 0 ≤
        179/250 ∧
      ((buildMockSearchResponse c3req 0).results.map (fun r => r.fit_score)).getD 2 0 <
        ((buildMockSearchResponse c3req 0).results.map (fun r => r.fit_score)).getD 3 0 := by
  refine ⟨?_, c3_distances, ?_, ?_, ?_, ?_, ?_, ?_⟩
  · have h := congrArg List.length c3_distances
    simpa using h
  · intro r hr
    have h2 := List.mem_map_of_mem (fun r => r.distance_m) hr
    rw [c3_distances] at h2
    simp only [List.mem_cons, List.not_mem_nil, or_false] at h2
    rcases h2 with h | h | h | h | h <;> rw [h] <;> norm_num
  · rw [c3_scores]
    rfl
  · rw [c3_scores]
    rfl
  · rw [c3_scores]
    norm_num
  · rw [c3_scores]
    norm_num
  · rw [c3_scores]
    norm_num

/-! ## C9 -/

/-- Rate-limit bucket keys and canonical search cache keys live in disjoint
namespaces: the former start with `ratelimit:`, the latter with `search:`. -/
lemma ratelimit_key_ne (k : String) (req : SearchRequest) :
    "ratelimit:" ++ k ≠ buildCacheKey req := by
  intro h
  have hd := congrArg String.data h
  have hr : ("ratelimit:" : String).data = 'r' :: "atelimit:".data := rfl
  have hs : ("search:" : String).data = 's' :: "earch:".data := rfl
  simp only [buildCacheKey, String.data_append, hr, hs, List.cons_append,
    List.append_assoc] at hd
  injection hd with h1 _
  exact absurd h1 (by decide)

/-- `cachePut` leaves every other key untouched. -/
lemma cachePut_ne (st : CacheState) (now : ℚ) (key : String) (v : StoredVal)
    (ttl : Option ℚ) (k : String) (h : k ≠ key) :
    cachePut st now key v ttl k = st k := by
  simp [cachePut, h]

/-- `cacheGet` touches (at most deletes) only the key it reads. -/
lemma cacheGet_ne (st : CacheState) (now : ℚ) (key k : String) (h : k ≠ key) :
    (cacheGet st now key).2 k = st k := by
  unfold cacheGet
  rcases hsk : st key with _ | ⟨v, exp⟩
  · rfl
  · rcases exp with _ | t
    · rfl
    · dsimp only
      split
      · simp [h]
      · rfl

/-- **C9**: if the canonical cache key of a (rate-admitted) request holds a
stored `CachedSearchResponse` that has not expired, the handler returns
exactly that stored response (cache-status HIT, no mock flag), the final
store state is the one left by the rate-limit bookkeeping alone (so no
response-cache write occurs and the stored entry is unchanged), and the
outcome is independent of the upstream fetch oracle (no upstream fetch,
no normalization). -/
theorem C9_cache_hit_returns_stored (apiKey : Option String)
    (f1 f2 : Except (String × ℕ) (List GooglePlace))
    (st : CacheState) (rateKey : String) (req : SearchRequest) (now : ℚ)
    (r : CachedSearchResponse) (e : Option ℚ)
    (hallow : (consumeToken st rateKey now).1.allowed = true)
    (hstored : st (buildCacheKey req) = some (.response r, e))
    (hfresh : ∀ t, e = some t → ¬(t ≠ 0 ∧ t ≤ now)) :
    (searchHandler apiKey f1 st rateKey req now).1 = .ok r true false ∧
      (searchHandler apiKey f1 st rateKey req now).2 = (consumeToken st rateKey now).2 ∧
      (searchHandler apiKey f1 st rateKey req now).2 (buildCacheKey req) =
        st (buildCacheKey req) ∧
      searchHandler apiKey f1 st rateKey req now = searchHandler apiKey f2 st rateKey req now := by
  have hne : buildCacheKey req ≠ "ratelimit:" ++ rateKey :=
    fun h2 => ratelimit_key_ne rateKey req h2.symm
  have hst1 : (consumeToken st rateKey now).2 (buildCacheKey req) =
      some (.response r, e) := by
    show (consumeToken st rateKey now).2 (buildCacheKey req) = _
    unfold consumeToken
    dsimp only
    rw [cachePut_ne _ _ _ _ _ _ hne, cacheGet_ne _ _ _ _ hne, hstored]
  have hget : cacheGet (consumeToken st rateKey now).2 now (buildCacheKey req) =
      (some (.response r), (consumeToken st rateKey now).2) := by
    unfold cacheGet
    rw [hst1]
    rcases e with _ | t
    · rfl
    · have hf := hfresh t rfl
      dsimp only
      rw [if_neg hf]
      rfl
  have hmain : ∀ f, searchHandler apiKey f st rateKey req now =
      (.ok r true false, (consumeToken st rateKey now).2) := by
    intro f
    unfold searchHandler
    dsimp only
    rw [hallow]
    simp only [Bool.true_eq_false, if_false]
    rw [hget]
  refine ⟨by rw [hmain f1], by rw [hmain f1], ?_, by rw [hmain f1, hmain f2]⟩
  rw [hmain f1]
  dsimp only
  rw [hst1, hstored]

/-- Witness for C9: concrete store with one fresh cached response; the
handler returns it as a HIT. -/
theorem C9_cache_hit_returns_stored_witness :
    (consumeToken c9state "ip:1.2.3.4" 0).1.allowed = true ∧
      c9state (buildCacheKey c9req) = some (.response c9resp, none) ∧
      (searchHandler none (.ok []) c9state "ip:1.2.3.4" c9req 0).1 = .ok c9resp true false :=
  ⟨by
      norm_num [consumeToken, cacheGet, consumeTokenCore, refillTokens, c9state,
        RATE_LIMIT_CAPACITY, RATE_LIMIT_INTERVAL_MS, ratelimit_key_ne "ip:1.2.3.4" c9req],
    by simp [c9state],
    (C9_cache_hit_returns_stored none (.ok []) (.error ("upstream", 502)) c9state "ip:1.2.3.4"
      c9req 0 c9resp none
      (by
        norm_num [consumeToken, cacheGet, consumeTokenCore, refillTokens, c9state,
          RATE_LIMIT_CAPACITY, RATE_LIMIT_INTERVAL_MS, ratelimit_key_ne "ip:1.2.3.4" c9req])
      (by simp [c9state])
      (by intro t ht; cases ht)).1⟩

end LunchPicker
